import Mathlib

/-!
Shallow embedding of the AgentCore memory / observability sample scripts and
proofs about their behaviour.

The embedded code comes from:
* `04-AgentCore-memory/01-short-term-memory-agent.py` — `MemoryHookProvider`
  with its two hooks `on_agent_initialized` and `on_message_added`;
* `04-AgentCore-memory/delete_all_memories.py` — `delete_all_memories`;
* `04-AgentCore-memory/basic_memory.py` — `create_memory_if_not_exists`;
* `06-AgentCore-observability/01-Agentcore-runtime-hosted/invoke_agentcore.py`
  — the module-level script that calls `invoke_agent_runtime`.

Python exceptions are modelled by `Except String`, where `.error e` is a
raised exception carrying its message; external service calls
(`get_last_k_turns`, `create_event`, `delete_memory`, `create_memory`,
`get_role`, `input`) are parameters of the embedded functions, so a theorem
quantifies over every possible behaviour of the remote store.  The
observable effects of a hook call (store calls issued, log lines emitted,
whether an exception escaped) are returned explicitly in result records.
-/

namespace AgentCore

/-- The content dict of a stored message, carrying a "text" key. -/
structure StoredContent where
  text : String
deriving Repr, DecidableEq

/-- One message as returned by the store read `get_last_k_turns`:
a dict with a "role" key and a "content" dict holding the text. -/
structure StoredMessage where
  role : String
  content : StoredContent
deriving Repr, DecidableEq

/-- A turn returned by the store read: a sequence of messages. -/
abbrev Turn := List StoredMessage

/-- One segment of an agent log entry's `content` list.  The Python value is
a dict which may or may not carry a `"text"` key; `text = none` models a
segment without that key (accessing it raises `KeyError`). -/
structure ContentSegment where
  text : Option String
deriving Repr, DecidableEq

/-- One entry of the agent's in-memory message log
(`event.agent.messages`): `{role, content: sequence_of(segment)}`. -/
structure LogEntry where
  role : String
  content : List ContentSegment
deriving Repr, DecidableEq

/-- The argument record of a `create_event` store write. -/
structure CreateEventCall where
  memory_id : String
  actor_id : String
  session_id : String
  messages : List (String × String)
deriving Repr, DecidableEq

/-- The argument record of a `get_last_k_turns` store read. -/
structure GetLastKTurnsCall where
  memory_id : String
  actor_id : String
  session_id : String
  k : Nat
deriving Repr, DecidableEq

/-- The constructor arguments of `MemoryHookProvider.__init__`. -/
structure MemoryHookProvider where
  memory_id : String
  actor_id : String
  session_id : String
deriving Repr, DecidableEq

/-- Observable outcome of one `on_message_added` call. -/
structure MsgAddedResult where
  calls : List CreateEventCall
  logs : List String
  raised : Option String
deriving Repr, DecidableEq

/-- Observable outcome of one `on_agent_initialized` call. -/
structure InitResult where
  system_prompt : String
  reads : List GetLastKTurnsCall
  logs : List String
  raised : Option String
deriving Repr, DecidableEq

/-- Evaluation of the Python expression
`(messages[-1]["content"][0]["text"], messages[-1]["role"])`:
`messages[-1]` raises `IndexError` on an empty log, `content[0]` raises
`IndexError` on empty content, and `["text"]` raises `KeyError` when the
first segment has no text key. -/
def extractLastMessage (messages : List LogEntry) : Except String (String × String) :=
  match messages.getLast? with
  | none => .error "IndexError: list index out of range"
  | some m =>
    match m.content.head? with
    | none => .error "IndexError: list index out of range"
    | some seg =>
      match seg.text with
      | none => .error "KeyError: text"
      | some t => .ok (t, m.role)

/-- Embeds `MemoryHookProvider.on_message_added`: inside a `try` block it evaluates
the last log entry's first text segment and role and calls
`create_event(memory_id, actor_id, session_id, messages=[(text, role)])`;
the `except Exception` clause logs a `Memory save error` line and swallows
any exception raised by either step, so the hook always returns normally
(`raised = none`). -/
def MemoryHookProvider.on_message_added (h : MemoryHookProvider)
    (messages : List LogEntry) (store : CreateEventCall → Except String Unit) :
    MsgAddedResult :=
  let attempt : List CreateEventCall × Option String :=
    match extractLastMessage messages with
    | .error e => ([], some e)
    | .ok (text, role) =>
      let call : CreateEventCall :=
        ⟨h.memory_id, h.actor_id, h.session_id, [(text, role)]⟩
      match store call with
      | .error e => ([call], some e)
      | .ok _ => ([call], none)
  match attempt with
  | (calls, some e) => ⟨calls, ["Memory save error: " ++ e], none⟩
  | (calls, none) => ⟨calls, [], none⟩

/-- Embeds `MemoryHookProvider.on_agent_initialized`: inside a `try` block it calls
`get_last_k_turns(..., k=5)`; when the result is non-empty it renders every
message of every returned turn as `"{role}: {content}"`, joins the lines
with newlines and appends `"\n\nRecent conversation:\n" + context` to the
agent's system prompt; the `except Exception` clause logs a
`Memory load error` line and swallows any exception from the store read. -/
def MemoryHookProvider.on_agent_initialized (h : MemoryHookProvider)
    (system_prompt : String)
    (store : GetLastKTurnsCall → Except String (List Turn)) : InitResult :=
  let call : GetLastKTurnsCall := ⟨h.memory_id, h.actor_id, h.session_id, 5⟩
  match store call with
  | .error e => ⟨system_prompt, [call], ["Memory load error: " ++ e], none⟩
  | .ok recent_turns =>
    if recent_turns.isEmpty then
      ⟨system_prompt, [call], [], none⟩
    else
      let context_messages :=
        recent_turns.flatMap fun turn =>
          turn.map fun message => message.role ++ ": " ++ message.content.text
      let context := String.intercalate "\n" context_messages
      ⟨system_prompt ++ "\n\nRecent conversation:\n" ++ context, [call],
       ["✅ Loaded " ++ toString recent_turns.length ++ " conversation turns"],
       none⟩

/-- Model of the external store read (spec section 3): with `stored` the
chronological sequence of turns of a session, `get_last_k_turns` returns the
most recent `k` turns in chronological order. -/
def get_last_k_turns (stored : List Turn) (k : Nat) : List Turn :=
  (stored.reverse.take k).reverse

/-- A memory object of the administrative scripts, modelled by its
"id" field (`memory.get("id")`). -/
structure MemoryRecord where
  id : String
deriving Repr, DecidableEq

/-- The loop body of `delete_all_memories`, with the running index into the
interactive `input` stream made explicit: for each memory the script reads a
confirmation line; `if confirmation.lower() != "y"` it prints
`Deletion cancelled.` and moves on, otherwise it calls
`delete_memory(memory.get("id"))`.  Returns the ids for which a
`delete_memory` call was issued, in order. -/
def deleteLoop : List MemoryRecord → (Nat → String) → Nat → List String
  | [], _, _ => []
  | m :: ms, inputs, i =>
    if (inputs i).toLower ≠ "y" then deleteLoop ms inputs (i + 1)
    else m.id :: deleteLoop ms inputs (i + 1)

/-- Embeds `delete_all_memories`: iterates over the memories returned by
`list_memories` (passed in as `memories`) and runs the confirmation-gated
deletion loop; `inputs i` is the line typed at the `i`-th interactive
prompt. -/
def delete_all_memories (memories : List MemoryRecord) (inputs : Nat → String) :
    List String :=
  deleteLoop memories inputs 0

/-- Lookup of a bare name inside the `try` block of
`create_memory_if_not_exists`: the names in scope there are the parameters
`name` and `description` (besides `memory`, just bound); any other name —
in particular `memory_name`, used by the success-path logging f-string —
raises `NameError`. -/
def lookupLocalName (name description : String) (var : String) :
    Except String String :=
  if var = "name" then .ok name
  else if var = "description" then .ok description
  else .error ("NameError: name " ++ var ++ " is not defined")

/-- Embeds `create_memory_if_not_exists` from `basic_memory.py`: inside a `try`
block it calls `create_memory(name, description)` and then evaluates
`logger.info(f"Created new memory {memory_name} with ID: ...")`, whose
f-string reads the name `memory_name`; the `except Exception` clause logs
the error and returns `None`.  `create_result` is the outcome of the remote
`create_memory` call. -/
def create_memory_if_not_exists (create_result : Except String MemoryRecord)
    (name description : String) : Option MemoryRecord :=
  let tryBody : Except String MemoryRecord :=
    match create_result with
    | .error e => .error e
    | .ok memory =>
      match lookupLocalName name description "memory_name" with
      | .error e => .error e
      | .ok _ => .ok memory
  match tryBody with
  | .error _ => none
  | .ok m => some m

/-- The argument record of an `invoke_agent_runtime` call. -/
structure InvokeRuntimeCall where
  agentRuntimeArn : Option String
  qualifier : String
  payload : String
deriving Repr, DecidableEq

/-- The `payload` argument of the `invoke_agent_runtime` call,
`json.dumps(\x7b"prompt": "What is 111,111,111 times 111,111,111?"\x7d)`. -/
def invokePayload : String :=
  "\x7b\"prompt\": \"What is 111,111,111 times 111,111,111?\"\x7d"

/-- The module-level script of `invoke_agentcore.py`:
`agent_arn = os.getenv("AGENTCORE_ROLE_ARN", None)`; when that is `None` it
fetches the IAM role ARN and binds it to the distinct variable
`AGENTCORE_ROLE_ARN` (re-raising a `ValueError` if the fetch fails); it then
calls `invoke_agent_runtime(agentRuntimeArn=agent_arn, qualifier="DEFAULT",
payload=...)`.  `env_arn` is the initial value of the environment variable
and `get_role_result` the outcome of the IAM `get_role` call; the result is
the `invoke_agent_runtime` call issued, or the escaping exception. -/
def invoke_agentcore (env_arn : Option String)
    (get_role_result : Except String String) : Except String InvokeRuntimeCall :=
  let agent_arn := env_arn
  match agent_arn with
  | some _ => .ok ⟨agent_arn, "DEFAULT", invokePayload⟩
  | none =>
    match get_role_result with
    | .error e =>
      .error ("ValueError: Error getting role ARN: " ++ e ++
        ". AGENTCORE_ROLE_ARN environment variable is not set.")
    | .ok _AGENTCORE_ROLE_ARN => .ok ⟨agent_arn, "DEFAULT", invokePayload⟩

/-! ## Theorems -/

/-- C1: for every `on_message_added` event whose agent message log is
non-empty (and whose last entry has a first text segment), the hook issues
exactly one store write, whose `messages` argument is the single pair of
that text and that entry's role — whatever the store write itself returns,
and with no other message from the log written. -/
theorem onMessageAdded_writes_exactly_last_message
    (h : MemoryHookProvider) (log : List LogEntry) (m : LogEntry)
    (t : String) (rest : List ContentSegment)
    (hlast : log.getLast? = some m) (hcontent : m.content = ⟨some t⟩ :: rest)
    (store : CreateEventCall → Except String Unit) :
    (h.on_message_added log store).calls =
      [⟨h.memory_id, h.actor_id, h.session_id, [(t, m.role)]⟩] := by
  have hx : extractLastMessage log = .ok (t, m.role) := by
    simp [extractLastMessage, hlast, hcontent]
  simp only [MemoryHookProvider.on_message_added, hx]
  rcases hs : store ⟨h.memory_id, h.actor_id, h.session_id, [(t, m.role)]⟩ with e | u <;>
    simp [hs]

/-- Witness for C1: the spec scenario — the agent emits
`{role: "USER", content: [{text: "My name is Alex"}]}` and the store write
receives `messages = [("My name is Alex", "USER")]`. -/
theorem onMessageAdded_writes_exactly_last_message_witness :
    ((⟨"mem", "actor", "sess"⟩ : MemoryHookProvider).on_message_added
        [⟨"USER", [⟨some "My name is Alex"⟩]⟩] (fun _ => .ok ())).calls =
      [⟨"mem", "actor", "sess", [("My name is Alex", "USER")]⟩] :=
  onMessageAdded_writes_exactly_last_message ⟨"mem", "actor", "sess"⟩
    [⟨"USER", [⟨some "My name is Alex"⟩]⟩] ⟨"USER", [⟨some "My name is Alex"⟩]⟩
    "My name is Alex" [] rfl rfl (fun _ => .ok ())

/-- The store-read model evaluates to the last `min k N` stored turns in
chronological order. -/
theorem get_last_k_turns_eq_drop (stored : List Turn) (k : Nat) :
    get_last_k_turns stored k = stored.drop (stored.length - k) := by
  rw [get_last_k_turns, ← List.rtake_eq_reverse_take_reverse, List.rtake]

/-- C2: `on_agent_initialized` issues exactly one store read with `k = 5`,
and against a store holding `N` chronological turns the appended block
contains exactly the messages of the last `min 5 N` turns in original
order — all five when `N ≥ 5`, and all `N` of them, without error, when
`N < 5` (nothing is appended when `N = 0`). -/
theorem onAgentInitialized_requests_five_and_renders_stored_turns
    (h : MemoryHookProvider) (p : String) (stored : List Turn) :
    (h.on_agent_initialized p fun c => .ok (get_last_k_turns stored c.k)).reads
        = [⟨h.memory_id, h.actor_id, h.session_id, 5⟩] ∧
    (h.on_agent_initialized p fun c => .ok (get_last_k_turns stored c.k)).raised
        = none ∧
    (h.on_agent_initialized p fun c => .ok (get_last_k_turns stored c.k)).system_prompt
        = (if stored = [] then p
           else
             p ++ "\n\nRecent conversation:\n" ++
               String.intercalate "\n"
                 ((stored.drop (stored.length - 5)).flatMap fun turn =>
                   turn.map fun message =>
                     message.role ++ ": " ++ message.content.text)) := by
  by_cases hs : stored = []
  · subst hs
    exact ⟨rfl, rfl, rfl⟩
  · have hne : stored.drop (stored.length - 5) ≠ [] := by
      intro hdrop
      rw [List.drop_eq_nil_iff] at hdrop
      have hlen : stored.length ≠ 0 := fun hz => hs (List.length_eq_zero.mp hz)
      omega
    simp [MemoryHookProvider.on_agent_initialized, get_last_k_turns_eq_drop, hne,
      hs]

/-- C3: if the store read `get_last_k_turns` raises any exception,
`on_agent_initialized` completes without raising and the system prompt is
exactly the string it was before the call. -/
theorem onAgentInitialized_read_error_leaves_prompt_unchanged
    (h : MemoryHookProvider) (p e : String) :
    (h.on_agent_initialized p fun _ => .error e).system_prompt = p ∧
    (h.on_agent_initialized p fun _ => .error e).raised = none :=
  ⟨rfl, rfl⟩

/-- C5: if the store write `create_event` raises any exception,
`on_message_added` completes without raising, logs the error as a
`Memory save error` line, and issues the write exactly once (no retry). -/
theorem onMessageAdded_write_error_swallowed_and_logged
    (h : MemoryHookProvider) (log : List LogEntry) (t r e : String)
    (hx : extractLastMessage log = .ok (t, r)) :
    (h.on_message_added log fun _ => .error e).raised = none ∧
    (h.on_message_added log fun _ => .error e).logs =
      ["Memory save error: " ++ e] ∧
    (h.on_message_added log fun _ => .error e).calls =
      [⟨h.memory_id, h.actor_id, h.session_id, [(t, r)]⟩] := by
  unfold MemoryHookProvider.on_message_added
  rw [hx]
  exact ⟨rfl, rfl, rfl⟩

/-- Witness for C5: a concrete log and a store that raises `boom` — the
call returns normally, logs the save error and issued one write. -/
theorem onMessageAdded_write_error_swallowed_and_logged_witness :
    ((⟨"mem", "actor", "sess"⟩ : MemoryHookProvider).on_message_added
        [⟨"USER", [⟨some "hi"⟩]⟩] fun _ => .error "boom").raised = none ∧
    ((⟨"mem", "actor", "sess"⟩ : MemoryHookProvider).on_message_added
        [⟨"USER", [⟨some "hi"⟩]⟩] fun _ => .error "boom").logs =
      ["Memory save error: " ++ "boom"] ∧
    ((⟨"mem", "actor", "sess"⟩ : MemoryHookProvider).on_message_added
        [⟨"USER", [⟨some "hi"⟩]⟩] fun _ => .error "boom").calls =
      [⟨"mem", "actor", "sess", [("hi", "USER")]⟩] :=
  onMessageAdded_write_error_swallowed_and_logged ⟨"mem", "actor", "sess"⟩
    [⟨"USER", [⟨some "hi"⟩]⟩] "hi" "USER" "boom" rfl

/-- C4: when the store read returns a non-empty list of turns,
`on_agent_initialized` renders each message as `role`, a colon-space, and
the text, joins the lines in chronological order with newlines, and appends
the block under the fixed `Recent conversation` header to the existing
system prompt, which therefore stays an unchanged prefix of the new
prompt. -/
theorem onAgentInitialized_appends_rendered_turns_to_prompt
    (h : MemoryHookProvider) (p : String) (turns : List Turn)
    (hne : turns ≠ []) :
    (h.on_agent_initialized p fun _ => .ok turns).system_prompt =
      p ++ "\n\nRecent conversation:\n" ++
        String.intercalate "\n"
          (turns.flatMap fun turn =>
            turn.map fun message => message.role ++ ": " ++ message.content.text) ∧
    (h.on_agent_initialized p fun _ => .ok turns).raised = none := by
  simp [MemoryHookProvider.on_agent_initialized, hne]

/-- Witness for C4: the spec scenario — stored turns render to
`USER: Hi` and `ASSISTANT: Hello` and the prompt gains exactly that joined
block under the header. -/
theorem onAgentInitialized_appends_rendered_turns_to_prompt_witness :
    ((⟨"mem", "actor", "sess"⟩ : MemoryHookProvider).on_agent_initialized "SYS"
        fun _ => .ok [[⟨"USER", ⟨"Hi"⟩⟩, ⟨"ASSISTANT", ⟨"Hello"⟩⟩]]).system_prompt =
      "SYS" ++ "\n\nRecent conversation:\n" ++ "USER: Hi\nASSISTANT: Hello" := by
  have hw := onAgentInitialized_appends_rendered_turns_to_prompt
      ⟨"mem", "actor", "sess"⟩ "SYS"
      [[⟨"USER", ⟨"Hi"⟩⟩, ⟨"ASSISTANT", ⟨"Hello"⟩⟩]] (by simp)
  rw [hw.1]
  rfl

/-- C6: if the store read returns no turns, `on_agent_initialized` proceeds
silently: the system prompt is unchanged, nothing is logged and no
exception escapes. -/
theorem onAgentInitialized_empty_result_no_mutation
    (h : MemoryHookProvider) (p : String) :
    (h.on_agent_initialized p fun _ => .ok []).system_prompt = p ∧
    (h.on_agent_initialized p fun _ => .ok []).logs = [] ∧
    (h.on_agent_initialized p fun _ => .ok []).raised = none :=
  ⟨rfl, rfl, rfl⟩

/-- C10: when the message log is empty, or the last entry has empty content,
or its first segment has no text key, the argument evaluation raises inside
the `try` block, so no store write is issued and no exception escapes. -/
theorem onMessageAdded_malformed_log_no_write_no_raise
    (h : MemoryHookProvider) (log : List LogEntry)
    (store : CreateEventCall → Except String Unit)
    (hm : log = [] ∨
      (∃ m, log.getLast? = some m ∧ m.content = []) ∨
      (∃ m rest, log.getLast? = some m ∧ m.content = ⟨none⟩ :: rest)) :
    (h.on_message_added log store).calls = [] ∧
    (h.on_message_added log store).raised = none := by
  have hex : ∃ e, extractLastMessage log = .error e := by
    rcases hm with h1 | ⟨m, hm1, hm2⟩ | ⟨m, rest, hm1, hm2⟩
    · subst h1; exact ⟨_, rfl⟩
    · exact ⟨"IndexError: list index out of range",
        by simp [extractLastMessage, hm1, hm2]⟩
    · exact ⟨"KeyError: text", by simp [extractLastMessage, hm1, hm2]⟩
  obtain ⟨e, he⟩ := hex
  unfold MemoryHookProvider.on_message_added
  rw [he]
  exact ⟨rfl, rfl⟩

/-- Witness for C10: a log whose last entry has an empty content list —
no write is issued and the hook returns normally. -/
theorem onMessageAdded_malformed_log_no_write_no_raise_witness :
    ((⟨"mem", "actor", "sess"⟩ : MemoryHookProvider).on_message_added
        [⟨"USER", []⟩] fun _ => .ok ()).calls = [] ∧
    ((⟨"mem", "actor", "sess"⟩ : MemoryHookProvider).on_message_added
        [⟨"USER", []⟩] fun _ => .ok ()).raised = none :=
  onMessageAdded_malformed_log_no_write_no_raise ⟨"mem", "actor", "sess"⟩
    [⟨"USER", []⟩] (fun _ => .ok ())
    (Or.inr (Or.inl ⟨⟨"USER", []⟩, rfl, rfl⟩))

/-- The deletion loop keeps exactly the ids whose confirmation line,
lowercased, is `y`, pairing the `i`-th memory with the `i`-th input line. -/
theorem deleteLoop_eq_filterMap (ms : List MemoryRecord) (inputs : Nat → String)
    (i : Nat) :
    deleteLoop ms inputs i =
      (ms.enumFrom i).filterMap fun q =>
        if (inputs q.1).toLower = "y" then some q.2.id else none := by
  induction ms generalizing i with
  | nil => rfl
  | cons m ms ih =>
    by_cases hy : (inputs i).toLower = "y" <;>
      simp [deleteLoop, List.enumFrom, hy, ih]

/-- C7: `delete_all_memories` issues a `delete_memory` call for the `i`-th
listed memory if and only if the `i`-th interactive confirmation line,
lowercased, equals `y`; every memory with any other answer is left
undeleted, and the issued deletions keep the listing order. -/
theorem deleteAllMemories_gated_by_confirmation
    (memories : List MemoryRecord) (inputs : Nat → String) :
    delete_all_memories memories inputs =
      memories.enum.filterMap fun q =>
        if (inputs q.1).toLower = "y" then some q.2.id else none := by
  rw [delete_all_memories, deleteLoop_eq_filterMap, List.enum]

/-- C8: `create_memory_if_not_exists` returns `None` on every input: when
the remote `create_memory` call fails the handler returns `None`, and when
it succeeds the success-path logging statement reads the undefined name
`memory_name`, raising a `NameError` that the catch-all handler also turns
into `None`; the created memory object is never returned. -/
theorem createMemoryIfNotExists_always_none
    (create_result : Except String MemoryRecord) (name description : String) :
    create_memory_if_not_exists create_result name description = none := by
  cases create_result <;> rfl

/-- C9: whenever the `invoke_agentcore.py` script reaches its
`invoke_agent_runtime` call, the `agentRuntimeArn` argument equals the
initial value of the `AGENTCORE_ROLE_ARN` environment variable — `none`
when the variable was unset — because the role ARN fetched from IAM is
bound to a different variable and never reaches the invocation. -/
theorem invokeAgentcore_uses_initial_env_arn
    (env_arn : Option String) (get_role_result : Except String String)
    (c : InvokeRuntimeCall)
    (hc : invoke_agentcore env_arn get_role_result = .ok c) :
    c.agentRuntimeArn = env_arn := by
  cases env_arn with
  | some a => cases hc; rfl
  | none =>
    cases get_role_result with
    | error e => cases hc
    | ok arn => cases hc; rfl

/-- Witness for C9: with the environment variable unset and the IAM fetch
returning a role ARN, the runtime invocation is issued with
`agentRuntimeArn = none` — the fetched ARN is not passed. -/
theorem invokeAgentcore_uses_initial_env_arn_witness :
    (invoke_agentcore none
        (.ok "arn:aws:iam::123456789012:role/agentcore-strands_claude-role")
      = .ok ⟨none, "DEFAULT", invokePayload⟩) ∧
    (⟨none, "DEFAULT", invokePayload⟩ : InvokeRuntimeCall).agentRuntimeArn
      = none :=
  ⟨rfl,
   invokeAgentcore_uses_initial_env_arn none
     (.ok "arn:aws:iam::123456789012:role/agentcore-strands_claude-role")
     ⟨none, "DEFAULT", invokePayload⟩ rfl⟩

end AgentCore
